import Mathlib

/-!
Verification of the spreadsheet-backed record store of the clinic dashboard
(`src/services/googleSheets.ts`, class `GoogleSheetsService`).

The store maps two entity kinds (appointments, patients) onto positional rows
of a remote spreadsheet.  We embed the row mapping and the CRUD operations
shallowly:

* a fetched cell value is a `String` (the Sheets values API returns strings);
* a row is a `List String`; a missing cell (JavaScript `row[i] === undefined`)
  is an out-of-range index of the list, so `row[i] || ''` becomes
  `row.getD i ""` (both the empty cell and the missing cell collapse to `""`,
  exactly as `||` does on strings/undefined), while the strict comparison
  `row[i] === userId` becomes `row[i]? == some userId` (a missing cell is
  never `===`-equal to any string, not even `""`);
* the whole table returned by a range fetch is a `List (List String)` whose
  first element is the header row;
* a remote fetch that throws (HTTP status ≥ 400 or transport failure) is
  modelled by `none` at the point where the code catches it;
* clearing a row's range (`...:clear`) leaves the physical row in place with
  every cell empty; a later whole-table fetch returns such a row as an empty
  row, which we model by setting the row to `[]`;
* optional entity fields (`patientEmail?`, `notes?`, ...) are modelled as
  `String` with `""` for the absent value, matching the `x || ''`
  serialization the code applies to them.
-/

namespace RecordStore

/-- One spreadsheet row as returned by the values API. -/
abbrev Row := List String

/-- A whole fetched table: row 1 (index 0) is the header row. -/
abbrev Table := List Row

/-- Appointment entity (14 columns A–N), from `src/types` as used by
`googleSheets.ts`.  `status` is kept as a `String` because the code casts the
raw cell (`row[7] || 'pending'`) into the status union type. -/
structure Appointment where
  id : String
  patientName : String
  patientPhone : String
  patientEmail : String
  appointmentDate : String
  appointmentTime : String
  serviceType : String
  status : String
  notes : String
  whatsappMessageId : String
  smsMessageId : String
  createdAt : String
  updatedAt : String
  userId : String
deriving Repr, DecidableEq

/-- Patient entity (11 columns A–K). -/
structure Patient where
  id : String
  name : String
  phone : String
  email : String
  dateOfBirth : String
  address : String
  emergencyContact : String
  medicalNotes : String
  createdAt : String
  updatedAt : String
  userId : String
deriving Repr, DecidableEq

/-- The row-to-entity mapping of `getAppointments` (lines 132–147): each field
is `row[i] || ''`, except `status` which defaults to `"pending"` when the cell
is empty or missing (`row[7] || 'pending'`). -/
def parseAppointmentRow (row : Row) : Appointment :=
  { id := row.getD 0 ""
    patientName := row.getD 1 ""
    patientPhone := row.getD 2 ""
    patientEmail := row.getD 3 ""
    appointmentDate := row.getD 4 ""
    appointmentTime := row.getD 5 ""
    serviceType := row.getD 6 ""
    status := if row.getD 7 "" = "" then "pending" else row.getD 7 ""
    notes := row.getD 8 ""
    whatsappMessageId := row.getD 9 ""
    smsMessageId := row.getD 10 ""
    createdAt := row.getD 11 ""
    updatedAt := row.getD 12 ""
    userId := row.getD 13 "" }

/-- The row-to-entity mapping of `getPatients` (lines 279–291). -/
def parsePatientRow (row : Row) : Patient :=
  { id := row.getD 0 ""
    name := row.getD 1 ""
    phone := row.getD 2 ""
    email := row.getD 3 ""
    dateOfBirth := row.getD 4 ""
    address := row.getD 5 ""
    emergencyContact := row.getD 6 ""
    medicalNotes := row.getD 7 ""
    createdAt := row.getD 8 ""
    updatedAt := row.getD 9 ""
    userId := row.getD 10 "" }

/-- Serialization of an appointment into its fixed-order 14-cell row, as built
identically in `createAppointment` (lines 169–184) and `updateAppointment`
(lines 212–227).  The `x || ''` the code applies to optional fields is the
identity on our `String` model (absent = `""`). -/
def appointmentToRow (a : Appointment) : Row :=
  [a.id, a.patientName, a.patientPhone, a.patientEmail,
   a.appointmentDate, a.appointmentTime, a.serviceType,
   a.status, a.notes, a.whatsappMessageId, a.smsMessageId,
   a.createdAt, a.updatedAt, a.userId]

/-- Serialization of a patient into its fixed-order 11-cell row
(`createPatient` lines 313–325, `updatePatient` lines 353–365). -/
def patientToRow (p : Patient) : Row :=
  [p.id, p.name, p.phone, p.email, p.dateOfBirth, p.address,
   p.emergencyContact, p.medicalNotes, p.createdAt, p.updatedAt, p.userId]

/-- The `getAppointments(userId)` read (lines 120–156): `none` models a fetch
that threw (the catch returns `[]`); with `rows.length <= 1` there is no data;
otherwise every data row (indices 1..) whose column N (`row[13]`) is
strictly equal to `userId` is mapped positionally into an `Appointment`. -/
def getAppointments (fetch : Option Table) (userId : String) : List Appointment :=
  match fetch with
  | none => []
  | some rows =>
    if rows.length ≤ 1 then []
    else ((rows.drop 1).filter (fun row => row[13]? == some userId)).map parseAppointmentRow

/-- The `getPatients(userId)` read (lines 267–300), column K (`row[10]`) being
the owner column. -/
def getPatients (fetch : Option Table) (userId : String) : List Patient :=
  match fetch with
  | none => []
  | some rows =>
    if rows.length ≤ 1 then []
    else ((rows.drop 1).filter (fun row => row[10]? == some userId)).map parsePatientRow

/-- TypeScript `Partial<Appointment>`: each key may be absent (`none`).  (A key
explicitly set to `undefined` is not modelled; the callers in the repository
never build such an object.) -/
structure AppointmentUpdates where
  id : Option String := none
  patientName : Option String := none
  patientPhone : Option String := none
  patientEmail : Option String := none
  appointmentDate : Option String := none
  appointmentTime : Option String := none
  serviceType : Option String := none
  status : Option String := none
  notes : Option String := none
  whatsappMessageId : Option String := none
  smsMessageId : Option String := none
  createdAt : Option String := none
  updatedAt : Option String := none
  userId : Option String := none
deriving Repr, DecidableEq

/-- TypeScript `Partial<Patient>`. -/
structure PatientUpdates where
  id : Option String := none
  name : Option String := none
  phone : Option String := none
  email : Option String := none
  dateOfBirth : Option String := none
  address : Option String := none
  emergencyContact : Option String := none
  medicalNotes : Option String := none
  createdAt : Option String := none
  updatedAt : Option String := none
  userId : Option String := none
deriving Repr, DecidableEq

/-- The object spread `{...apt, ...updates, updatedAt: now}` of
`updateAppointment` (lines 206–210): every key present in `updates` overrides
the existing field, after which `updatedAt` is unconditionally restamped. -/
def mergeAppointment (a : Appointment) (u : AppointmentUpdates) (now : String) : Appointment :=
  { id := u.id.getD a.id
    patientName := u.patientName.getD a.patientName
    patientPhone := u.patientPhone.getD a.patientPhone
    patientEmail := u.patientEmail.getD a.patientEmail
    appointmentDate := u.appointmentDate.getD a.appointmentDate
    appointmentTime := u.appointmentTime.getD a.appointmentTime
    serviceType := u.serviceType.getD a.serviceType
    status := u.status.getD a.status
    notes := u.notes.getD a.notes
    whatsappMessageId := u.whatsappMessageId.getD a.whatsappMessageId
    smsMessageId := u.smsMessageId.getD a.smsMessageId
    createdAt := u.createdAt.getD a.createdAt
    updatedAt := now
    userId := u.userId.getD a.userId }

/-- The spread `{...patients[patientIndex], ...updates, updatedAt: now}` of
`updatePatient` (lines 347–351). -/
def mergePatient (p : Patient) (u : PatientUpdates) (now : String) : Patient :=
  { id := u.id.getD p.id
    name := u.name.getD p.name
    phone := u.phone.getD p.phone
    email := u.email.getD p.email
    dateOfBirth := u.dateOfBirth.getD p.dateOfBirth
    address := u.address.getD p.address
    emergencyContact := u.emergencyContact.getD p.emergencyContact
    medicalNotes := u.medicalNotes.getD p.medicalNotes
    createdAt := u.createdAt.getD p.createdAt
    updatedAt := now
    userId := u.userId.getD p.userId }

/-- JavaScript `arr.findIndex(p)` followed by `arr[index]`, fused: returns the
0-based position of the first element satisfying `p` together with that
element, or `none` when `findIndex` would return `-1`. -/
def scanLocate (p : α → Bool) : List α → Option (Nat × α)
  | [] => none
  | a :: l => if p a then some (0, a) else (scanLocate p l).map (fun r => (r.1 + 1, r.2))

/-- `updateAppointment(id, updates)` (lines 197–241).  The locating read is
`getAppointments(updates.userId || '')`; absence of the id in that list throws
`'Appointment not found'` before any write.  On success the re-serialized
merged record is PUT to range `A{rowNumber}:N{rowNumber}` with
`rowNumber = appointmentIndex + 2`, i.e. the physical row at list index
`appointmentIndex + 1` of the table is overwritten.  The table argument is the
current backend state, which the locating fetch also returns (single-threaded,
no concurrent mutation). -/
def updateAppointment (t : Table) (id : String) (u : AppointmentUpdates) (now : String) :
    Except String Table :=
  match scanLocate (fun apt => apt.id == id) (getAppointments (some t) (u.userId.getD "")) with
  | none => .error "Appointment not found"
  | some (idx, apt) => .ok (t.set (idx + 1) (appointmentToRow (mergeAppointment apt u now)))

/-- `updatePatient(id, updates)` (lines 338–379), range `A{r}:K{r}`. -/
def updatePatient (t : Table) (id : String) (u : PatientUpdates) (now : String) :
    Except String Table :=
  match scanLocate (fun pat => pat.id == id) (getPatients (some t) (u.userId.getD "")) with
  | none => .error "Patient not found"
  | some (idx, pat) => .ok (t.set (idx + 1) (patientToRow (mergePatient pat u now)))

/-- `deleteAppointment(id, userId)` (lines 243–264): locate by the same scan,
then POST `A{rowNumber}:N{rowNumber}:clear`, blanking (not removing) the
physical row at list index `rowNumber - 1 = appointmentIndex + 1`; a cleared
row comes back from a later fetch as an empty row. -/
def deleteAppointment (t : Table) (id : String) (userId : String) : Except String Table :=
  match scanLocate (fun apt => apt.id == id) (getAppointments (some t) userId) with
  | none => .error "Appointment not found"
  | some (idx, _) => .ok (t.set (idx + 1) ([] : Row))

/-- `deletePatient(id, userId)` (lines 381–402). -/
def deletePatient (t : Table) (id : String) (userId : String) : Except String Table :=
  match scanLocate (fun pat => pat.id == id) (getPatients (some t) userId) with
  | none => .error "Patient not found"
  | some (idx, _) => .ok (t.set (idx + 1) ([] : Row))

/-- The backend table after an update attempt: an exception thrown before the
PUT (the not-found path) leaves the table untouched. -/
def runUpdateAppointment (t : Table) (id : String) (u : AppointmentUpdates) (now : String) : Table :=
  match updateAppointment t id u now with
  | .ok t2 => t2
  | .error _ => t

/-- The backend table after a patient update attempt. -/
def runUpdatePatient (t : Table) (id : String) (u : PatientUpdates) (now : String) : Table :=
  match updatePatient t id u now with
  | .ok t2 => t2
  | .error _ => t

/-- Outcome of the header-range probe `GET /values/{sheet}!A1:N1` as seen by
`ensureAppointmentsSheet`: `err` when the request threw (status ≥ 400 or
transport failure), `ok values` when it returned 2xx — `values` being the
returned grid, empty when the range holds no data (a 2xx response with no
`values` key). -/
inductive FetchResult where
  | err : FetchResult
  | ok : Table → FetchResult
deriving Repr, DecidableEq

/-- Canonical appointments header row (lines 77–82). -/
def appointmentHeaders : Row :=
  ["ID", "Patient Name", "Patient Phone", "Patient Email",
   "Appointment Date", "Appointment Time", "Service Type",
   "Status", "Notes", "WhatsApp Message ID", "SMS Message ID",
   "Created At", "Updated At", "User ID"]

/-- Canonical patients header row (lines 99–103). -/
def patientHeaders : Row :=
  ["ID", "Name", "Phone", "Email", "Date of Birth",
   "Address", "Emergency Contact", "Medical Notes",
   "Created At", "Updated At", "User ID"]

/-- `ensureAppointmentsSheet` (lines 76–96): tries the header-range GET and,
only when that GET throws, PUTs the canonical header row to the same range
`A1:N1`.  The result is the row written, or `none` when no write is issued;
the body of a successful GET is discarded without inspection. -/
def ensureAppointmentsSheet (probe : FetchResult) : Option Row :=
  match probe with
  | .err => some appointmentHeaders
  | .ok _ => none

/-- `ensurePatientsSheet` (lines 98–117), range `A1:K1`. -/
def ensurePatientsSheet (probe : FetchResult) : Option Row :=
  match probe with
  | .err => some patientHeaders
  | .ok _ => none

/-- Occurrence of `sub` as a contiguous subsequence starting at any position
of the second list. -/
def containsSeq [BEq α] (sub : List α) : List α → Bool
  | [] => sub.isEmpty
  | a :: rest => sub.isPrefixOf (a :: rest) || containsSeq sub rest

/-- JavaScript `String.prototype.includes`. -/
def strIncludes (s sub : String) : Bool :=
  containsSeq sub.data s.data

/-- Outcome of the metadata probe `GET .../spreadsheets/{id}` made by
`testConnection`: a 2xx response whose body does or does not carry a
`properties` object, or a thrown request error with the HTTP status and the
provider-supplied message suffix appended by `makeRequest` (empty when the
error body had no message). -/
inductive ProbeResult where
  | ok : Bool → ProbeResult
  | httpError : Nat → String → ProbeResult
deriving Repr, DecidableEq

/-- Error message built by `makeRequest` for a status ≥ 400 (lines 40–54). -/
def requestErrorMessage (status : Nat) (suffix : String) : String :=
  "Google Sheets API error: " ++ toString status ++ suffix

/-- Message-rewriting of `testConnection`'s catch block (lines 424–436). -/
def classifyConnectionError (m : String) : String :=
  if strIncludes m "404" then
    "Spreadsheet not found. Please check the spreadsheet ID and make sure it\u0027s publicly accessible."
  else if strIncludes m "403" then
    "Access denied. Please check your API key and spreadsheet permissions."
  else if strIncludes m "400" then
    "Invalid request. Please check your API key and spreadsheet ID."
  else m

/-- `testConnection` (lines 405–440): an empty (falsy) `spreadsheetId` returns
the configuration error before any request; otherwise the probe outcome is
inspected — success exactly when the response carries `properties`. -/
def testConnection (spreadsheetId : String) (probe : ProbeResult) : Bool × Option String :=
  if spreadsheetId = "" then
    (false, some "Spreadsheet ID is required")
  else
    match probe with
    | .ok true => (true, none)
    | .ok false => (false, some "Invalid spreadsheet response")
    | .httpError status suffix =>
      (false, some (classifyConnectionError (requestErrorMessage status suffix)))

/-- Concrete appointment record row: id `apt1`, owner `user1`, status
`pending` (14 cells, columns A–N). -/
def apt1Row : Row :=
  ["apt1", "Alice", "555-0100", "", "2025-01-01", "09:00", "checkup",
   "pending", "", "", "", "T0", "T0", "user1"]

/-- A table holding only the header row and the `apt1` record. -/
def tableOne : Table := [appointmentHeaders, apt1Row]

/-- A table whose first data row was cleared by an earlier delete (the spec's
permanent gap): header, blank row, then the `apt1` record, which therefore
sits at scan position 1 among the data rows, i.e. at spreadsheet row 3. -/
def tableGap : Table := [appointmentHeaders, [], apt1Row]

/-- A single-field partial update `{status: 'confirmed'}` with no other key. -/
def uStatus : AppointmentUpdates := { status := some "confirmed" }

/-- The same single-field update also carrying the owner id, as the UI callers
build it (`{status, userId: user.id}`). -/
def uStatusOwner : AppointmentUpdates := { status := some "confirmed", userId := some "user1" }

/-- The table produced by running `updateAppointment` on `tableGap`: the
merged record is written over the blank physical row 2, while the record's
own row 3 keeps its stale cells. -/
def tableGapAfterUpdate : Table :=
  [appointmentHeaders,
   appointmentToRow (mergeAppointment (parseAppointmentRow apt1Row) uStatusOwner "T2"),
   apt1Row]

/-- Concrete appointment entity with the optional fields absent (empty). -/
def aptEx : Appointment :=
  { id := "apt1", patientName := "Alice", patientPhone := "555-0100", patientEmail := "",
    appointmentDate := "2025-01-01", appointmentTime := "09:00", serviceType := "checkup",
    status := "pending", notes := "", whatsappMessageId := "", smsMessageId := "",
    createdAt := "T0", updatedAt := "T0", userId := "user1" }

/-- Concrete patient entity with the optional fields absent. -/
def patEx : Patient :=
  { id := "pat1", name := "Bob", phone := "555-0101", email := "", dateOfBirth := "",
    address := "", emergencyContact := "", medicalNotes := "",
    createdAt := "T0", updatedAt := "T0", userId := "user1" }

/-- Concrete patient record row for `patEx`. -/
def pat1Row : Row := patientToRow patEx

/-- A patients table holding the header row and the `pat1` record. -/
def tablePat : Table := [patientHeaders, pat1Row]

end RecordStore

namespace RecordStore

theorem scanLocate_eq_some {p : α → Bool} {l : List α} {i : Nat} {a : α}
    (h : scanLocate p l = some (i, a)) : l[i]? = some a ∧ p a = true := by
  induction l generalizing i with
  | nil => simp [scanLocate] at h
  | cons b l ih =>
    by_cases hb : p b
    · simp only [scanLocate, if_pos hb, Option.some.injEq, Prod.mk.injEq] at h
      obtain ⟨rfl, rfl⟩ := h
      simpa using hb
    · simp only [scanLocate, if_neg hb, Option.map_eq_some'] at h
      obtain ⟨⟨j, c⟩, hjc, heq⟩ := h
      simp only [Prod.mk.injEq] at heq
      obtain ⟨rfl, rfl⟩ := heq
      simpa using ih hjc

theorem scanLocate_eq_none {p : α → Bool} {l : List α} :
    scanLocate p l = none ↔ ∀ a ∈ l, p a = false := by
  induction l with
  | nil => simp [scanLocate]
  | cons b l ih =>
    by_cases hb : p b
    · simp [scanLocate, hb]
    · have hb' : p b = false := by simpa using hb
      simp [scanLocate, hb', ih, Option.map_eq_none', List.forall_mem_cons]

theorem getAppointments_owner {f : Option Table} {u : String} {a : Appointment}
    (h : a ∈ getAppointments f u) : a.userId = u := by
  match f with
  | none => simp [getAppointments] at h
  | some rows =>
    simp only [getAppointments] at h
    split at h
    · simp at h
    · obtain ⟨row, hrow, rfl⟩ := List.mem_map.mp h
      have hq := (List.mem_filter.mp hrow).2
      have h13 : row[13]? = some u := by simpa using hq
      simp [parseAppointmentRow, h13]

theorem getPatients_owner {f : Option Table} {u : String} {q : Patient}
    (h : q ∈ getPatients f u) : q.userId = u := by
  match f with
  | none => simp [getPatients] at h
  | some rows =>
    simp only [getPatients] at h
    split at h
    · simp at h
    · obtain ⟨row, hrow, rfl⟩ := List.mem_map.mp h
      have hq := (List.mem_filter.mp hrow).2
      have h10 : row[10]? = some u := by simpa using hq
      simp [parsePatientRow, h10]

theorem getAppointments_status_ne {f : Option Table} {u : String} {a : Appointment}
    (h : a ∈ getAppointments f u) : ¬ a.status = "" := by
  match f with
  | none => simp [getAppointments] at h
  | some rows =>
    simp only [getAppointments] at h
    split at h
    · simp at h
    · obtain ⟨row, _, rfl⟩ := List.mem_map.mp h
      simp only [parseAppointmentRow]
      split
      · simp
      · assumption

theorem parsePatient_roundtrip (q : Patient) : parsePatientRow (patientToRow q) = q := rfl

theorem parseAppointment_roundtrip (a : Appointment) (h : ¬ a.status = "") :
    parseAppointmentRow (appointmentToRow a) = a := by
  obtain ⟨f1, f2, f3, f4, f5, f6, f7, st, f9, f10, f11, f12, f13, f14⟩ := a
  show Appointment.mk _ _ _ _ _ _ _ (if st = "" then "pending" else st) _ _ _ _ _ _ =
    Appointment.mk f1 f2 f3 f4 f5 f6 f7 st f9 f10 f11 f12 f13 f14
  rw [if_neg h]
  rfl

theorem update_then_list_appointment
    {t : Table} {id : String} {u : AppointmentUpdates} {now : String} {idx : Nat}
    {r : Appointment}
    (hscan : scanLocate (fun apt => apt.id == id)
        (getAppointments (some t) (u.userId.getD "")) = some (idx, r))
    (hstat : ¬ u.status = some "") :
    mergeAppointment r u now ∈
      getAppointments (some (runUpdateAppointment t id u now)) (u.userId.getD "") := by
  obtain ⟨hget, hp⟩ := scanLocate_eq_some hscan
  have hmem : r ∈ getAppointments (some t) (u.userId.getD "") := List.getElem?_mem hget
  have hlen2 : ¬ t.length ≤ 1 := by
    intro hle
    rw [show getAppointments (some t) (u.userId.getD "") = [] by
      simp [getAppointments, hle]] at hmem
    simp at hmem
  have hidx : idx + 1 < t.length := by
    have h1 : idx < (getAppointments (some t) (u.userId.getD "")).length :=
      (List.getElem?_eq_some_iff.mp hget).1
    have h2 : (getAppointments (some t) (u.userId.getD "")).length ≤ t.length - 1 := by
      rw [show getAppointments (some t) (u.userId.getD "") =
          ((t.drop 1).filter (fun row => row[13]? == some (u.userId.getD ""))).map
            parseAppointmentRow by simp [getAppointments, hlen2]]
      rw [List.length_map]
      calc ((t.drop 1).filter (fun row => row[13]? == some (u.userId.getD ""))).length
          ≤ (t.drop 1).length := List.length_filter_le _ _
        _ = t.length - 1 := by simp
    omega
  have hok : updateAppointment t id u now =
      Except.ok (t.set (idx + 1) (appointmentToRow (mergeAppointment r u now))) := by
    simp [updateAppointment, hscan]
  have hrun : runUpdateAppointment t id u now =
      t.set (idx + 1) (appointmentToRow (mergeAppointment r u now)) := by
    simp [runUpdateAppointment, hok]
  have huid : (mergeAppointment r u now).userId = u.userId.getD "" := by
    cases hcase : u.userId with
    | some o => simp [mergeAppointment, hcase]
    | none =>
      have h0 := getAppointments_owner hmem
      rw [hcase] at h0
      simpa [mergeAppointment, hcase] using h0
  have hset : (t.set (idx + 1) (appointmentToRow (mergeAppointment r u now)))[idx + 1]? =
      some (appointmentToRow (mergeAppointment r u now)) :=
    List.getElem?_set_self hidx
  have hdrop : ((t.set (idx + 1) (appointmentToRow (mergeAppointment r u now))).drop 1)[idx]? =
      some (appointmentToRow (mergeAppointment r u now)) := by
    rw [List.getElem?_drop, Nat.add_comm 1 idx]
    exact hset
  have hmem2 : appointmentToRow (mergeAppointment r u now) ∈
      (t.set (idx + 1) (appointmentToRow (mergeAppointment r u now))).drop 1 :=
    List.getElem?_mem hdrop
  have hfilter : appointmentToRow (mergeAppointment r u now) ∈
      ((t.set (idx + 1) (appointmentToRow (mergeAppointment r u now))).drop 1).filter
        (fun row => row[13]? == some (u.userId.getD "")) := by
    refine List.mem_filter.mpr ⟨hmem2, ?_⟩
    have h13 : (appointmentToRow (mergeAppointment r u now))[13]? =
        some (mergeAppointment r u now).userId := rfl
    rw [h13, huid]
    simp
  have hstatus : ¬ (mergeAppointment r u now).status = "" := by
    cases hcase : u.status with
    | none =>
      have := getAppointments_status_ne hmem
      simpa [mergeAppointment, hcase] using this
    | some s =>
      have hs : ¬ s = "" := by
        intro hs0
        exact hstat (by rw [hcase, hs0])
      simpa [mergeAppointment, hcase] using hs
  have hparse : parseAppointmentRow (appointmentToRow (mergeAppointment r u now)) =
      mergeAppointment r u now :=
    parseAppointment_roundtrip _ hstatus
  rw [hrun]
  have hlen' : ¬ (t.set (idx + 1) (appointmentToRow (mergeAppointment r u now))).length ≤ 1 := by
    simpa using hlen2
  simp only [getAppointments, if_neg hlen']
  have hmapped := List.mem_map_of_mem parseAppointmentRow hfilter
  rw [hparse] at hmapped
  exact hmapped

theorem update_then_list_patient
    {t : Table} {id : String} {v : PatientUpdates} {now : String} {idx : Nat}
    {r : Patient}
    (hscan : scanLocate (fun pat => pat.id == id)
        (getPatients (some t) (v.userId.getD "")) = some (idx, r)) :
    mergePatient r v now ∈
      getPatients (some (runUpdatePatient t id v now)) (v.userId.getD "") := by
  obtain ⟨hget, hp⟩ := scanLocate_eq_some hscan
  have hmem : r ∈ getPatients (some t) (v.userId.getD "") := List.getElem?_mem hget
  have hlen2 : ¬ t.length ≤ 1 := by
    intro hle
    rw [show getPatients (some t) (v.userId.getD "") = [] by
      simp [getPatients, hle]] at hmem
    simp at hmem
  have hidx : idx + 1 < t.length := by
    have h1 : idx < (getPatients (some t) (v.userId.getD "")).length :=
      (List.getElem?_eq_some_iff.mp hget).1
    have h2 : (getPatients (some t) (v.userId.getD "")).length ≤ t.length - 1 := by
      rw [show getPatients (some t) (v.userId.getD "") =
          ((t.drop 1).filter (fun row => row[10]? == some (v.userId.getD ""))).map
            parsePatientRow by simp [getPatients, hlen2]]
      rw [List.length_map]
      calc ((t.drop 1).filter (fun row => row[10]? == some (v.userId.getD ""))).length
          ≤ (t.drop 1).length := List.length_filter_le _ _
        _ = t.length - 1 := by simp
    omega
  have hok : updatePatient t id v now =
      Except.ok (t.set (idx + 1) (patientToRow (mergePatient r v now))) := by
    simp [updatePatient, hscan]
  have hrun : runUpdatePatient t id v now =
      t.set (idx + 1) (patientToRow (mergePatient r v now)) := by
    simp [runUpdatePatient, hok]
  have huid : (mergePatient r v now).userId = v.userId.getD "" := by
    cases hcase : v.userId with
    | some o => simp [mergePatient, hcase]
    | none =>
      have h0 := getPatients_owner hmem
      rw [hcase] at h0
      simpa [mergePatient, hcase] using h0
  have hset : (t.set (idx + 1) (patientToRow (mergePatient r v now)))[idx + 1]? =
      some (patientToRow (mergePatient r v now)) :=
    List.getElem?_set_self hidx
  have hdrop : ((t.set (idx + 1) (patientToRow (mergePatient r v now))).drop 1)[idx]? =
      some (patientToRow (mergePatient r v now)) := by
    rw [List.getElem?_drop, Nat.add_comm 1 idx]
    exact hset
  have hmem2 : patientToRow (mergePatient r v now) ∈
      (t.set (idx + 1) (patientToRow (mergePatient r v now))).drop 1 :=
    List.getElem?_mem hdrop
  have hfilter : patientToRow (mergePatient r v now) ∈
      ((t.set (idx + 1) (patientToRow (mergePatient r v now))).drop 1).filter
        (fun row => row[10]? == some (v.userId.getD "")) := by
    refine List.mem_filter.mpr ⟨hmem2, ?_⟩
    have h10 : (patientToRow (mergePatient r v now))[10]? =
        some (mergePatient r v now).userId := rfl
    rw [h10, huid]
    simp
  rw [hrun]
  have hlen' : ¬ (t.set (idx + 1) (patientToRow (mergePatient r v now))).length ≤ 1 := by
    simpa using hlen2
  simp only [getPatients, if_neg hlen']
  have hmapped := List.mem_map_of_mem parsePatientRow hfilter
  rw [parsePatient_roundtrip (mergePatient r v now)] at hmapped
  exact hmapped

/-- C1: the code claims to overwrite (update) or clear (delete) the row
numbered `i + 2` for the record at 0-based scan position `i` among all data
rows, i.e. the row holding the record.  It does not: the index it adds 2 to is
the record's position in the owner-filtered `list` result, not its scan
position among the data rows.  On `tableGap` the record `apt1` sits at scan
position 1 (spreadsheet row 3), yet the update PUT targets row 2 — the blank
row — and the record's own row keeps its stale cells (status still
`pending`). -/
theorem c1_update_overwrites_wrong_row :
    (tableGap.drop 1).findIdx (fun row => row.getD 0 "" == "apt1") + 2 = 3 ∧
    updateAppointment tableGap "apt1" uStatusOwner "T2" = Except.ok tableGapAfterUpdate ∧
    tableGapAfterUpdate[2]? = some apt1Row ∧
    apt1Row.getD 7 "" = "pending" := by
  refine ⟨?_, ?_, ?_, ?_⟩ <;> rfl

/-- C8: on `tableGap` the delete of `apt1` clears physical row 2 (the already
blank row) instead of the record's row 3, so the operation reports success
while `list` afterwards still contains the id; and since the table is left
unchanged, a second delete of the same id again succeeds instead of raising
Not-found. -/
theorem c8_delete_leaves_id_listed :
    deleteAppointment tableGap "apt1" "user1" = Except.ok tableGap ∧
    (getAppointments (some tableGap) "user1").map Appointment.id = ["apt1"] := by
  exact ⟨rfl, rfl⟩

/-- C2: `update` raises the Not-found domain error exactly when no record with
the given id occurs in `list(ownerId)` (the owner being `updates.userId`,
defaulted to the empty string), and in that case the table is untouched — the
error is thrown before any write request.  Both entity kinds. -/
theorem c2_update_not_found :
    ∀ (t : Table) (id : String) (u : AppointmentUpdates) (v : PatientUpdates) (now : String),
      ((updateAppointment t id u now = Except.error "Appointment not found" ↔
          ∀ a ∈ getAppointments (some t) (u.userId.getD ""), a.id ≠ id) ∧
        (updateAppointment t id u now = Except.error "Appointment not found" →
          runUpdateAppointment t id u now = t)) ∧
      ((updatePatient t id v now = Except.error "Patient not found" ↔
          ∀ q ∈ getPatients (some t) (v.userId.getD ""), q.id ≠ id) ∧
        (updatePatient t id v now = Except.error "Patient not found" →
          runUpdatePatient t id v now = t)) := by
  intro t id u v now
  constructor
  · rcases hscan : scanLocate (fun apt => apt.id == id)
        (getAppointments (some t) (u.userId.getD "")) with _ | ⟨idx, a⟩
    · have herr : updateAppointment t id u now = Except.error "Appointment not found" := by
        simp [updateAppointment, hscan]
      have hall : ∀ b ∈ getAppointments (some t) (u.userId.getD ""), b.id ≠ id := by
        intro b hb
        have := scanLocate_eq_none.mp hscan b hb
        simpa using this
      have hrun : runUpdateAppointment t id u now = t := by
        simp [runUpdateAppointment, herr]
      exact ⟨⟨fun _ => hall, fun _ => herr⟩, fun _ => hrun⟩
    · obtain ⟨hget, hp⟩ := scanLocate_eq_some hscan
      have hmem := List.getElem?_mem hget
      have haid : a.id = id := by simpa using hp
      have hok : updateAppointment t id u now =
          Except.ok (t.set (idx + 1) (appointmentToRow (mergeAppointment a u now))) := by
        simp [updateAppointment, hscan]
      refine ⟨⟨fun h => absurd (hok ▸ h) (by simp), fun hall => absurd haid (hall a hmem)⟩, ?_⟩
      intro h
      exact absurd (hok ▸ h) (by simp)
  · rcases hscan : scanLocate (fun pat => pat.id == id)
        (getPatients (some t) (v.userId.getD "")) with _ | ⟨idx, q⟩
    · have herr : updatePatient t id v now = Except.error "Patient not found" := by
        simp [updatePatient, hscan]
      have hall : ∀ b ∈ getPatients (some t) (v.userId.getD ""), b.id ≠ id := by
        intro b hb
        have := scanLocate_eq_none.mp hscan b hb
        simpa using this
      have hrun : runUpdatePatient t id v now = t := by
        simp [runUpdatePatient, herr]
      exact ⟨⟨fun _ => hall, fun _ => herr⟩, fun _ => hrun⟩
    · obtain ⟨hget, hp⟩ := scanLocate_eq_some hscan
      have hmem := List.getElem?_mem hget
      have haid : q.id = id := by simpa using hp
      have hok : updatePatient t id v now =
          Except.ok (t.set (idx + 1) (patientToRow (mergePatient q v now))) := by
        simp [updatePatient, hscan]
      refine ⟨⟨fun h => absurd (hok ▸ h) (by simp), fun hall => absurd haid (hall q hmem)⟩, ?_⟩
      intro h
      exact absurd (hok ▸ h) (by simp)

/-- Witness for C2 at a concrete input: updating a nonexistent id on a
header-only table raises Not-found and leaves the table unchanged. -/
theorem c2_witness :
    updateAppointment [appointmentHeaders] "nope" {} "T1" = Except.error "Appointment not found" ∧
    runUpdateAppointment [appointmentHeaders] "nope" {} "T1" = [appointmentHeaders] := by
  have h := (c2_update_not_found [appointmentHeaders] "nope" {} {} "T1").1
  have he := h.1.mpr (by decide)
  exact ⟨he, h.2 he⟩

/-- C3: every record returned by `list(ownerId)` — for either entity kind and
any fetched table contents — carries exactly `ownerId` in its owner field;
rows whose owner column differs, is absent, or is cut short are filtered out
by the strict `row[i] === userId` comparison before parsing. -/
theorem c3_list_owner_partition :
    (∀ (fetch : Option Table) (ownerId : String) (a : Appointment),
        a ∈ getAppointments fetch ownerId → a.userId = ownerId) ∧
    (∀ (fetch : Option Table) (ownerId : String) (q : Patient),
        q ∈ getPatients fetch ownerId → q.userId = ownerId) :=
  ⟨fun _ _ _ h => getAppointments_owner h, fun _ _ _ h => getPatients_owner h⟩

/-- Witness for C3 at a concrete table for each entity kind. -/
theorem c3_witness :
    parseAppointmentRow apt1Row ∈ getAppointments (some tableOne) "user1" ∧
    (parseAppointmentRow apt1Row).userId = "user1" ∧
    parsePatientRow pat1Row ∈ getPatients (some tablePat) "user1" ∧
    (parsePatientRow pat1Row).userId = "user1" := by
  have h1 : parseAppointmentRow apt1Row ∈ getAppointments (some tableOne) "user1" := by decide
  have h2 : parsePatientRow pat1Row ∈ getPatients (some tablePat) "user1" := by decide
  exact ⟨h1, c3_list_owner_partition.1 (some tableOne) "user1" _ h1, h2,
    c3_list_owner_partition.2 (some tablePat) "user1" _ h2⟩

/-- C4 counterexample: a header-range probe that succeeds with an empty grid
(a 2xx response carrying no values — an existing but empty sheet) triggers no
header write, although the claim requires a write whenever the fetch "fails
or returns empty".  The write happens only on the thrown-error path. -/
theorem c4_counterexample :
    ensureAppointmentsSheet (FetchResult.ok []) = none ∧
    ensurePatientsSheet (FetchResult.ok []) = none :=
  ⟨rfl, rfl⟩

/-- C4 (amended): initialization probes each table's header range and writes
the canonical header row, to that same range, exactly when the probe throws;
any successful probe — whatever values it returns, including none — performs
no header write, so a second call on a table whose headers exist (probe
succeeds) writes nothing: repeated initialization is safe. -/
theorem c4_header_write_iff_probe_throws :
    ensureAppointmentsSheet FetchResult.err = some appointmentHeaders ∧
    (∀ vs : Table, ensureAppointmentsSheet (FetchResult.ok vs) = none) ∧
    ensurePatientsSheet FetchResult.err = some patientHeaders ∧
    (∀ vs : Table, ensurePatientsSheet (FetchResult.ok vs) = none) :=
  ⟨rfl, fun _ => rfl, rfl, fun _ => rfl⟩

/-- C5: serializing an entity into its fixed-order row and parsing that row
back with the `list` row mapping restores the entity field-for-field —
unconditionally for patients, and for appointments whose `status` holds one
of the values of the status union type (the parser turns an empty status cell
into the declared default `pending`, and the union type excludes the empty
string).  Empty optional fields (absent `patientEmail`, `notes`, ...) survive
the round trip as empty strings. -/
theorem c5_roundtrip :
    (∀ a : Appointment,
        (a.status = "pending" ∨ a.status = "confirmed" ∨ a.status = "cancelled" ∨
          a.status = "completed") →
        parseAppointmentRow (appointmentToRow a) = a) ∧
    (∀ q : Patient, parsePatientRow (patientToRow q) = q) := by
  constructor
  · intro a hs
    apply parseAppointment_roundtrip
    rcases hs with h | h | h | h <;> simp [h]
  · exact parsePatient_roundtrip

/-- Witness for C5: concrete entities with every optional field empty. -/
theorem c5_witness :
    (aptEx.status = "pending" ∨ aptEx.status = "confirmed" ∨ aptEx.status = "cancelled" ∨
      aptEx.status = "completed") ∧
    parseAppointmentRow (appointmentToRow aptEx) = aptEx ∧
    parsePatientRow (patientToRow patEx) = patEx :=
  ⟨Or.inl rfl, c5_roundtrip.1 aptEx (Or.inl rfl), c5_roundtrip.2 patEx⟩

/-- C6: `list(ownerId)` is a total function into sequences — a failed table
fetch (the caught exception path) and a table with at most one row (header
only, or entirely empty) both yield the empty sequence, for every owner and
both entity kinds; no exception escapes. -/
theorem c6_list_empty_on_failure_or_short :
    (∀ u : String, getAppointments none u = [] ∧ getPatients none u = []) ∧
    (∀ (rows : Table) (u : String), rows.length ≤ 1 →
        getAppointments (some rows) u = [] ∧ getPatients (some rows) u = []) := by
  refine ⟨fun u => ⟨rfl, rfl⟩, fun rows u h => ⟨?_, ?_⟩⟩ <;>
    simp [getAppointments, getPatients, h]

/-- Witness for C6: a failed fetch and a header-only table, both owners of
records nowhere to be found. -/
theorem c6_witness :
    getAppointments none "user1" = [] ∧
    ([appointmentHeaders] : Table).length ≤ 1 ∧
    getAppointments (some [appointmentHeaders]) "user1" = [] ∧
    getPatients (some [patientHeaders]) "user1" = [] :=
  ⟨(c6_list_empty_on_failure_or_short.1 "user1").1, by simp,
    (c6_list_empty_on_failure_or_short.2 [appointmentHeaders] "user1" (by simp)).1,
    (c6_list_empty_on_failure_or_short.2 [patientHeaders] "user1" (by simp)).2⟩

/-- C7 counterexample: on a table holding the freshly created record `apt1`
(owner `user1`), the bare single-field update `{status: 'confirmed'}` does not
take effect: `updateAppointment` derives the locating owner from
`updates.userId || ''`, scans `list('')`, finds nothing, and raises Not-found;
the subsequent `list(ownerId)` still shows status `pending`, not the new
value. -/
theorem c7_counterexample :
    updateAppointment tableOne "apt1" uStatus "T2" = Except.error "Appointment not found" ∧
    (getAppointments (some (runUpdateAppointment tableOne "apt1" uStatus "T2")) "user1").map
        Appointment.status = ["pending"] := by
  exact ⟨rfl, rfl⟩

/-- C10: the spread `{...record, ...updates, updatedAt: now}` merges every key
present in the partial update verbatim over the existing record — `id`,
`createdAt` and the owner field included — and only `updatedAt` is
unconditionally restamped afterwards; the serialized row carries the merged
`id` (column A), the merged `createdAt` (column L) and the fresh stamp
(column M).  Both entity kinds. -/
theorem c10_merge_verbatim :
    ∀ (a : Appointment) (u : AppointmentUpdates) (q : Patient) (v : PatientUpdates) (now : String),
      (mergeAppointment a u now).id = u.id.getD a.id ∧
      (mergeAppointment a u now).patientName = u.patientName.getD a.patientName ∧
      (mergeAppointment a u now).patientPhone = u.patientPhone.getD a.patientPhone ∧
      (mergeAppointment a u now).patientEmail = u.patientEmail.getD a.patientEmail ∧
      (mergeAppointment a u now).appointmentDate = u.appointmentDate.getD a.appointmentDate ∧
      (mergeAppointment a u now).appointmentTime = u.appointmentTime.getD a.appointmentTime ∧
      (mergeAppointment a u now).serviceType = u.serviceType.getD a.serviceType ∧
      (mergeAppointment a u now).status = u.status.getD a.status ∧
      (mergeAppointment a u now).notes = u.notes.getD a.notes ∧
      (mergeAppointment a u now).whatsappMessageId = u.whatsappMessageId.getD a.whatsappMessageId ∧
      (mergeAppointment a u now).smsMessageId = u.smsMessageId.getD a.smsMessageId ∧
      (mergeAppointment a u now).createdAt = u.createdAt.getD a.createdAt ∧
      (mergeAppointment a u now).updatedAt = now ∧
      (mergeAppointment a u now).userId = u.userId.getD a.userId ∧
      (appointmentToRow (mergeAppointment a u now)).getD 0 "" = u.id.getD a.id ∧
      (appointmentToRow (mergeAppointment a u now)).getD 11 "" = u.createdAt.getD a.createdAt ∧
      (appointmentToRow (mergeAppointment a u now)).getD 12 "" = now ∧
      (mergePatient q v now).id = v.id.getD q.id ∧
      (mergePatient q v now).name = v.name.getD q.name ∧
      (mergePatient q v now).phone = v.phone.getD q.phone ∧
      (mergePatient q v now).email = v.email.getD q.email ∧
      (mergePatient q v now).dateOfBirth = v.dateOfBirth.getD q.dateOfBirth ∧
      (mergePatient q v now).address = v.address.getD q.address ∧
      (mergePatient q v now).emergencyContact = v.emergencyContact.getD q.emergencyContact ∧
      (mergePatient q v now).medicalNotes = v.medicalNotes.getD q.medicalNotes ∧
      (mergePatient q v now).createdAt = v.createdAt.getD q.createdAt ∧
      (mergePatient q v now).updatedAt = now ∧
      (mergePatient q v now).userId = v.userId.getD q.userId := by
  intro a u q v now
  repeat' apply And.intro
  all_goals rfl

/-- C7 (amended): for a record located by the update's own scan — which
requires the partial update to carry the record's owner id in its `userId`
key, since the code derives the locating owner from `updates.userId || ''` —
a partial update whose keys exclude the timestamps yields, in the following
`list(ownerId)`, the merged record: each updated field holds its new value,
every field without a key in the update keeps its old value, `updatedAt` is
the fresh stamp, and `createdAt` is unchanged.  (The physical row the PUT
lands on can still be the wrong one — see C1 — but the merged record is
always among the rows `list(ownerId)` returns.)  Both entity kinds. -/
theorem c7_update_field_then_list :
    (∀ (t : Table) (id : String) (u : AppointmentUpdates) (now : String) (idx : Nat)
        (r : Appointment),
      scanLocate (fun apt => apt.id == id)
          (getAppointments (some t) (u.userId.getD "")) = some (idx, r) →
      u.createdAt = none → ¬ u.status = some "" →
      (mergeAppointment r u now ∈
          getAppointments (some (runUpdateAppointment t id u now)) (u.userId.getD "") ∧
        (mergeAppointment r u now).updatedAt = now ∧
        (mergeAppointment r u now).createdAt = r.createdAt ∧
        (mergeAppointment r u now).id = u.id.getD r.id ∧
        (mergeAppointment r u now).patientName = u.patientName.getD r.patientName ∧
        (mergeAppointment r u now).patientPhone = u.patientPhone.getD r.patientPhone ∧
        (mergeAppointment r u now).patientEmail = u.patientEmail.getD r.patientEmail ∧
        (mergeAppointment r u now).appointmentDate = u.appointmentDate.getD r.appointmentDate ∧
        (mergeAppointment r u now).appointmentTime = u.appointmentTime.getD r.appointmentTime ∧
        (mergeAppointment r u now).serviceType = u.serviceType.getD r.serviceType ∧
        (mergeAppointment r u now).status = u.status.getD r.status ∧
        (mergeAppointment r u now).notes = u.notes.getD r.notes ∧
        (mergeAppointment r u now).whatsappMessageId =
          u.whatsappMessageId.getD r.whatsappMessageId ∧
        (mergeAppointment r u now).smsMessageId = u.smsMessageId.getD r.smsMessageId)) ∧
    (∀ (t : Table) (id : String) (v : PatientUpdates) (now : String) (idx : Nat) (r : Patient),
      scanLocate (fun pat => pat.id == id)
          (getPatients (some t) (v.userId.getD "")) = some (idx, r) →
      v.createdAt = none →
      (mergePatient r v now ∈
          getPatients (some (runUpdatePatient t id v now)) (v.userId.getD "") ∧
        (mergePatient r v now).updatedAt = now ∧
        (mergePatient r v now).createdAt = r.createdAt ∧
        (mergePatient r v now).id = v.id.getD r.id ∧
        (mergePatient r v now).name = v.name.getD r.name ∧
        (mergePatient r v now).phone = v.phone.getD r.phone ∧
        (mergePatient r v now).email = v.email.getD r.email ∧
        (mergePatient r v now).dateOfBirth = v.dateOfBirth.getD r.dateOfBirth ∧
        (mergePatient r v now).address = v.address.getD r.address ∧
        (mergePatient r v now).emergencyContact = v.emergencyContact.getD r.emergencyContact ∧
        (mergePatient r v now).medicalNotes = v.medicalNotes.getD r.medicalNotes)) := by
  constructor
  · intro t id u now idx r hscan hc hstat
    refine ⟨update_then_list_appointment hscan hstat, rfl, ?_, rfl, rfl, rfl, rfl, rfl, rfl,
      rfl, rfl, rfl, rfl, rfl⟩
    simp [mergeAppointment, hc]
  · intro t id v now idx r hscan hc
    refine ⟨update_then_list_patient hscan, rfl, ?_, rfl, rfl, rfl, rfl, rfl, rfl, rfl, rfl⟩
    simp [mergePatient, hc]

/-- Witness for C7 (amended) at a concrete input: the UI-style single-field
update `{status: 'confirmed', userId: 'user1'}` of the created record `apt1`,
followed by `list('user1')`, shows the record with the new status, fresh
`updatedAt` and untouched `createdAt`. -/
theorem c7_witness :
    scanLocate (fun apt => apt.id == "apt1")
        (getAppointments (some tableOne) (uStatusOwner.userId.getD "")) =
      some (0, parseAppointmentRow apt1Row) ∧
    uStatusOwner.createdAt = none ∧
    ¬ uStatusOwner.status = some "" ∧
    mergeAppointment (parseAppointmentRow apt1Row) uStatusOwner "T2" ∈
      getAppointments (some (runUpdateAppointment tableOne "apt1" uStatusOwner "T2"))
        (uStatusOwner.userId.getD "") ∧
    (mergeAppointment (parseAppointmentRow apt1Row) uStatusOwner "T2").status = "confirmed" ∧
    (mergeAppointment (parseAppointmentRow apt1Row) uStatusOwner "T2").updatedAt = "T2" ∧
    (mergeAppointment (parseAppointmentRow apt1Row) uStatusOwner "T2").createdAt = "T0" := by
  have hscan : scanLocate (fun apt => apt.id == "apt1")
      (getAppointments (some tableOne) (uStatusOwner.userId.getD "")) =
      some (0, parseAppointmentRow apt1Row) := by decide
  have hc : uStatusOwner.createdAt = none := rfl
  have hs : ¬ uStatusOwner.status = some "" := by decide
  have h := c7_update_field_then_list.1 tableOne "apt1" uStatusOwner "T2" 0
    (parseAppointmentRow apt1Row) hscan hc hs
  exact ⟨hscan, hc, hs, h.1, rfl, rfl, rfl⟩

/-- C9: with the spreadsheet identifier missing, `testConnection` returns
`success:false` with the message `"Spreadsheet ID is required"` (which
contains `"ID is required"`) without consulting the probe — the result is the
same whatever the network would have answered; with an identifier present, it
succeeds exactly when the metadata probe carries spreadsheet `properties`, a
2xx body without them yields `"Invalid spreadsheet response"`, and a thrown
probe error is rewritten by its HTTP status code: 404 to the not-found
message, 403 to the access-denied message, 400 to the bad-request message. -/
theorem c9_test_connection :
    (∀ p q : ProbeResult, testConnection "" p = testConnection "" q) ∧
    (∀ p : ProbeResult, testConnection "" p = (false, some "Spreadsheet ID is required")) ∧
    strIncludes "Spreadsheet ID is required" "ID is required" = true ∧
    (∀ (sid : String) (p : ProbeResult), sid ≠ "" →
        ((testConnection sid p).1 = true ↔ p = ProbeResult.ok true)) ∧
    (∀ sid : String, sid ≠ "" →
        testConnection sid (ProbeResult.ok false) =
          (false, some "Invalid spreadsheet response") ∧
        testConnection sid (ProbeResult.httpError 404 "") =
          (false, some "Spreadsheet not found. Please check the spreadsheet ID and make sure it\u0027s publicly accessible.") ∧
        testConnection sid (ProbeResult.httpError 403 "") =
          (false, some "Access denied. Please check your API key and spreadsheet permissions.") ∧
        testConnection sid (ProbeResult.httpError 400 "") =
          (false, some "Invalid request. Please check your API key and spreadsheet ID.")) := by
  refine ⟨fun p q => rfl, fun p => rfl, by decide, ?_, ?_⟩
  · intro sid p hsid
    rcases p with b | ⟨st, suf⟩
    · cases b <;> simp [testConnection, hsid]
    · simp [testConnection, hsid]
  · intro sid hsid
    refine ⟨?_, ?_, ?_, ?_⟩ <;> simp only [testConnection, if_neg hsid] <;> rfl

/-- Witness for C9 at a concrete nonempty identifier. -/
theorem c9_witness :
    ("abc" : String) ≠ "" ∧
    ((testConnection "abc" (ProbeResult.ok true)).1 = true ↔
      ProbeResult.ok true = ProbeResult.ok true) ∧
    testConnection "abc" (ProbeResult.httpError 404 "") =
      (false, some "Spreadsheet not found. Please check the spreadsheet ID and make sure it\u0027s publicly accessible.") := by
  have hne : ("abc" : String) ≠ "" := by decide
  exact ⟨hne, c9_test_connection.2.2.2.1 "abc" (ProbeResult.ok true) hne,
    (c9_test_connection.2.2.2.2 "abc" hne).2.1⟩

end RecordStore
